import Mathlib

/-!
Verification of the time-driven orbital propagation core of a THREE.js
solar-system viewer (`src/index.mjs`).  The rendering library is out of
scope; we embed the numerical/stateful core: Julian-date conversion,
Keplerian element propagation, orbit-trace sampling, the per-frame update
(`animate`), and the collision/dialog logic.  Functions imported from the
`solarplanets` package are not part of the repository source; they are
modelled from the specification (each such definition says so in its doc
comment).  JavaScript floating-point numbers are idealised as real numbers;
the calendar arithmetic, which is exact in the source, is embedded over ℚ.
-/

namespace SolarSim

/-- The constant `spatialScale = 5e-1` (src/index.mjs line 10). -/
noncomputable def spatialScale : ℝ := 5e-1

/-- The constant `MU_SUN_KM3PS2 = 1.327e11` (src/index.mjs line 11). -/
noncomputable def MU_SUN_KM3PS2 : ℝ := 1.327e11

/-- The constant `au2km = 1.49597871e8` (src/index.mjs line 124). -/
noncomputable def au2km : ℝ := 1.49597871e8

/-- A three-component vector (`THREE.Vector3` as used by the core). -/
structure Vec3 where
  x : ℝ
  y : ℝ
  z : ℝ

/-- A catalog record of Keplerian elements and secular rates, as consumed by
`buildOrbitTrace` (`ce.a_au`, `ce.da_au`) and the propagator.  Elements are
in AU / degrees at J2000.0, rates per Julian century (spec §3, §6). -/
structure Elements where
  a_au : ℝ
  da_au : ℝ
  e0 : ℝ
  de : ℝ
  i0 : ℝ
  di : ℝ
  Om0 : ℝ
  dOm : ℝ
  pom0 : ℝ
  dpom : ℝ
  L0 : ℝ
  dL : ℝ

/-- The UTC calendar fields extracted from a JS `Date` by
`getJdFromDatetime` (src/index.mjs lines 95-100); `second` carries the
milliseconds fraction, exactly as `getUTCSeconds() + getUTCMilliseconds()*1e-3`. -/
structure DateTimeUTC where
  year : ℤ
  month : ℤ
  day : ℤ
  hour : ℤ
  minute : ℤ
  second : ℚ

/-- Modelled from the spec: `solarplanets.getJ0FromDatevec` is not in the
repository source.  Spec §4.1: "compute the integer Julian Day Number for
0h UT of the given UTC calendar date" — the standard algorithm
`J0 = 367 y − ⌊7(y + ⌊(m+9)/12⌋)/4⌋ + ⌊275 m / 9⌋ + d + 1721013.5`
(floored integer division, as `Math.floor`). -/
def getJ0FromDatevec (y m d : ℤ) : ℚ :=
  ((367 * y - (7 * (y + (m + 9).fdiv 12)).fdiv 4 + (275 * m).fdiv 9 + d : ℤ) : ℚ)
    + 3442027 / 2

/-- Modelled from the spec: `solarplanets.getUtFromTimevec` is not in the
repository source.  Spec §4.1: "the fractional day computed from
hours/minutes/seconds". -/
def getUtFromTimevec (H M : ℤ) (S : ℚ) : ℚ :=
  ((H : ℚ) + (M : ℚ) / 60 + S / 3600) / 24

/-- Modelled from the spec: `solarplanets.getJdFromDateTime` is not in the
repository source.  Spec §4.1: JD = Julian Day Number at 0h UT plus the
fractional day. -/
def getJdFromDateTime (J0 UT : ℚ) : ℚ := J0 + UT

/-- Function `getJdFromDatetime` (src/index.mjs lines 93-105): extract the UTC
calendar fields and combine `J0` and `UT` into the Julian Date. -/
def getJdFromDatetime (dt : DateTimeUTC) : ℚ :=
  getJdFromDateTime (getJ0FromDatevec dt.year dt.month dt.day)
    (getUtFromTimevec dt.hour dt.minute dt.second)

/-- Claim C9: the calendar-to-Julian-date conversion applied to the
timestamp 2000-01-01T12:00:00 UTC returns exactly 2451545.0. -/
theorem C9_jd_of_j2000 :
    getJdFromDatetime ⟨2000, 1, 1, 12, 0, 0⟩ = 2451545 := by
  simp only [getJdFromDatetime, getJdFromDateTime, getJ0FromDatevec, getUtFromTimevec]
  have h1 : ((1 : ℤ) + 9).fdiv 12 = 0 := by decide
  rw [h1]
  have h2 : (7 * ((2000 : ℤ) + 0)).fdiv 4 = 3500 := by decide
  rw [h2]
  have h3 : ((275 : ℤ) * 1).fdiv 9 = 30 := by decide
  rw [h3]
  norm_num

/-- Modelled from the spec: the Julian Date of an instant (spec §4.1's
`toJulianDate` expressed on the millisecond representation of a `Date`;
the Unix epoch 1970-01-01T00:00:00 UTC is JD 2440587.5).  For modern dates
this is the same function as `getJdFromDatetime` on the extracted calendar
fields. -/
noncomputable def jdOfMs (ms : ℝ) : ℝ := ms / 86400000 + 2440587.5

/-- Modelled from the spec: `solarplanets.getJulianCenturies` is not in the
repository source.  Spec §4.1: `T = (jd − 2451545.0) / 36525.0`. -/
noncomputable def getJulianCenturies (jd : ℝ) : ℝ := (jd - 2451545) / 36525

/-- Modelled from the spec: `solarplanets.getCurrentElements` is not in the
repository source.  Spec §4.2 step 1: `value(T) = value0 + rate·T`. -/
noncomputable def getCurrentElements (v0 rate T : ℝ) : ℝ := v0 + rate * T

/-- Degrees to radians (spec §4.2 numeric semantics: "degrees in storage,
radians in trigonometric evaluation"). -/
noncomputable def deg2rad (x : ℝ) : ℝ := x * Real.pi / 180

/-- Modelled from the spec: normalization of the mean anomaly "into
(−180°, 180°]" (spec §4.2 step 2). -/
noncomputable def normalizeDeg (M : ℝ) : ℝ := M - 360 * ⌈M / 360 - 1 / 2⌉

/-- Modelled from the spec: the Newton–Raphson loop of the Kepler solver
(spec §4.2 step 3): iterate `E ← E − (E − e·sin E − M)/(1 − e·cos E)` until
`|ΔE| < 1e-6` radians or the fuel (iteration cap) runs out, returning the
last estimate. -/
noncomputable def keplerIter (ecc M : ℝ) : ℕ → ℝ → ℝ
  | 0, E => E
  | fuel + 1, E =>
    let dE := (E - ecc * Real.sin E - M) / (1 - ecc * Real.cos E)
    if |dE| < 1e-6 then E - dE else keplerIter ecc M fuel (E - dE)

/-- Modelled from the spec: solve Kepler's equation `E − e·sin E = M` by
Newton–Raphson from `E₀ = M + e·sin M` with iteration cap 30 (spec §4.2
step 3). -/
noncomputable def keplerSolve (ecc M : ℝ) : ℝ :=
  keplerIter ecc M 30 (M + ecc * Real.sin M)

/-- Modelled from the spec: `solarplanets.getRvFromElementsDatetime` (the
`ElementPropagator`) is not in the repository source.  Spec §4.2: evaluate
the six elements at the epoch's Julian centuries, form the mean anomaly
`M = L − ϖ` normalized into (−180°, 180°], solve Kepler's equation, take
orbital-plane coordinates `x' = a(cos E − e)`, `y' = a·sqrt(1−e²)·sin E`,
and rotate about z by `ω = ϖ − Ω`, about x by `i`, about z by `Ω`.  The
output is the heliocentric position in kilometers (only the position is
consumed downstream). -/
noncomputable def getRvFromElementsDatetime (ce : Elements) (t_ms : ℝ) : Vec3 :=
  let T := getJulianCenturies (jdOfMs t_ms)
  let a_km := getCurrentElements ce.a_au ce.da_au T * au2km
  let ecc := getCurrentElements ce.e0 ce.de T
  let inc := deg2rad (getCurrentElements ce.i0 ce.di T)
  let Om := deg2rad (getCurrentElements ce.Om0 ce.dOm T)
  let pom := deg2rad (getCurrentElements ce.pom0 ce.dpom T)
  let L := getCurrentElements ce.L0 ce.dL T
  let M := deg2rad (normalizeDeg (L - getCurrentElements ce.pom0 ce.dpom T))
  let E := keplerSolve ecc M
  let xp := a_km * (Real.cos E - ecc)
  let yp := a_km * Real.sqrt (1 - ecc ^ 2) * Real.sin E
  let w := pom - Om
  let x1 := xp * Real.cos w - yp * Real.sin w
  let y1 := xp * Real.sin w + yp * Real.cos w
  let y2 := y1 * Real.cos inc
  let z2 := y1 * Real.sin inc
  ⟨x1 * Real.cos Om - y2 * Real.sin Om, x1 * Real.sin Om + y2 * Real.cos Om, z2⟩

/-- Componentwise scaling `mesh.position.set(spatialScale * r[0], spatialScale * r[1],
spatialScale * r[2])` — componentwise scaling as done at src/index.mjs
lines 134-138 and 177-181. -/
noncomputable def scaleVec (s : ℝ) (v : Vec3) : Vec3 := ⟨s * v.x, s * v.y, s * v.z⟩

/-- JavaScript `String.prototype.toLowerCase` for the ASCII body names
(`name.toLowerCase()`, src/index.mjs lines 108, 152, 174). -/
def lowerName (s : String) : String := ⟨s.data.map Char.toLower⟩

/-- The constant `n = 1e2` — the point count of `buildOrbitTrace`
(src/index.mjs line 110). -/
def nTracePoints : ℕ := 100

/-- The fallback branch of `buildOrbitTrace` (src/index.mjs lines 112-121):
`n+1` points of a circle of radius `spatialScale * radius` in the plane
`z = 0`, at angles `2π·i/n`. -/
noncomputable def fallbackTracePoints (radius : ℝ) : List Vec3 :=
  (List.range (nTracePoints + 1)).map fun i : ℕ =>
    let ang_rad := 2 * Real.pi * (i : ℝ) / (nTracePoints : ℝ)
    ⟨spatialScale * radius * Real.cos ang_rad,
     spatialScale * radius * Real.sin ang_rad,
     spatialScale * 0⟩

/-- The catalog branch of `buildOrbitTrace` (src/index.mjs lines 122-139):
semi-major axis at the epoch of `now`, period `T_s = 2π·sqrt(a³/μ)`, and
`n+1` propagated samples at `now + (T_s·i/n)·1e3` milliseconds. -/
noncomputable def catalogTracePoints (ce : Elements) (now_ms : ℝ) : List Vec3 :=
  let JD := jdOfMs now_ms
  let T0 := getJulianCenturies JD
  let a_km := getCurrentElements (ce.a_au * au2km) (ce.da_au * au2km) T0
  let T_s := 2 * Real.pi * Real.sqrt (a_km ^ 3 / MU_SUN_KM3PS2)
  (List.range (nTracePoints + 1)).map fun i : ℕ =>
    let dt_s := T_s * (i : ℝ) / (nTracePoints : ℝ)
    let t_ms := now_ms + dt_s * 1000
    scaleVec spatialScale (getRvFromElementsDatetime ce t_ms)

/-- Function `buildOrbitTrace` (src/index.mjs lines 107-149), reduced to the point
list fed into the line geometry.  `wallNow_ms` is the value of the
`new Date()` taken inside the function at line 125 — a fresh wall-clock
reading, made explicit as a parameter. -/
noncomputable def buildOrbitTracePoints (catalog : String → Option Elements)
    (radius : ℝ) (name : String) (wallNow_ms : ℝ) : List Vec3 :=
  match catalog (lowerName name) with
  | none => fallbackTracePoints radius
  | some ce => catalogTracePoints ce wallNow_ms

/-- One entry of the `planets` array (src/index.mjs lines 25-75). -/
structure Planet where
  name : String
  radius_km : ℝ
  semiMajorAxis_km : ℝ
  orbitalPeriod_days : ℝ
  approximateColor_hex : ℕ

/-- The `planets` array (src/index.mjs lines 25-75). -/
noncomputable def planets : List Planet :=
  [⟨"Mercury", 2.4e3, 57.91e6, 87.9691, 0x666666⟩,
   ⟨"Venus", 6.051e3, 108.21e6, 224.701, 0xaaaa77⟩,
   ⟨"Earth", 6.3781e3, 1.49898023e8, 365.256, 0x33bb33⟩,
   ⟨"Mars", 3.389e3, 2.27939366e8, 686.980, 0xbb3333⟩,
   ⟨"Jupiter", 6.9911e4, 7.78479e8, 4332.59, 0xaa7722⟩,
   ⟨"Saturn", 5.8232e4, 1.43353e9, 10755.7, 0xccaa55⟩,
   ⟨"Uranus", 2.5362e4, 2.870972e9, 30688.5, 0x7777ff⟩,
   ⟨"Neptune", 2.4622e4, 4.50e9, 60195, 0x4422aa⟩]

/-- The eight tracked planet names, `planets.map(p => p.name)` as built in
`processCollision` (src/index.mjs line 162). -/
noncomputable def planetNames : List String := planets.map Planet.name

/-- The mutable fields of `window.app` that the propagation core reads and
writes (src/index.mjs lines 13-23): the simulation clock (`clock`, a `Date`
held as milliseconds), the pause flag (`isPaused`), and — standing for the
scene graph — the published position of each named object
(`scene.getObjectByName(name).position`; `none` models a name with no
scene object). -/
structure AppState where
  clock_ms : ℝ
  isPaused : Bool
  positions : String → Option Vec3

/-- The per-planet body of the `planets.forEach` in `animate`
(src/index.mjs lines 172-183): if the scene has an object of the planet's
name and the catalog has its elements, re-propagate at `now` and write the
scaled position; otherwise leave the positions untouched. -/
noncomputable def animateBody (catalog : String → Option Elements) (now_ms : ℝ)
    (p : String → Option Vec3) (pl : Planet) : String → Option Vec3 :=
  match p pl.name, catalog (lowerName pl.name) with
  | some _, some ce =>
    fun n => if n = pl.name then
        some (scaleVec spatialScale (getRvFromElementsDatetime ce now_ms))
      else p n
  | _, _ => p

/-- The `planets.forEach(...)` loop of `animate` over a given planet list. -/
noncomputable def animateBodies (catalog : String → Option Elements) (now_ms : ℝ)
    (l : List Planet) (p : String → Option Vec3) : String → Option Vec3 :=
  l.foldl (animateBody catalog now_ms) p

/-- The position updates of one `animate` frame (src/index.mjs lines
170-183). -/
noncomputable def animatePositions (catalog : String → Option Elements) (now_ms : ℝ)
    (p : String → Option Vec3) : String → Option Vec3 :=
  animateBodies catalog now_ms planets p

/-- One frame of `animate` (src/index.mjs lines 170-197) restricted to the
state the core owns: read `now = window.app.clock`, update every tracked
body position from it, and at the end set the clock to a fresh wall-clock
reading (`new Date()`, passed in as `wallNow_ms`) unless paused. -/
noncomputable def animateStep (catalog : String → Option Elements) (wallNow_ms : ℝ)
    (s : AppState) : AppState :=
  { clock_ms := if s.isPaused then s.clock_ms else wallNow_ms
    isPaused := s.isPaused
    positions := animatePositions catalog s.clock_ms s.positions }

/-- Iteration of `k` successive `animate` frames; `wall k` is the wall-clock reading
taken during the `(k+1)`-st frame. -/
noncomputable def iterateAnimate (catalog : String → Option Elements) (wall : ℕ → ℝ) :
    ℕ → AppState → AppState
  | 0, s => s
  | k + 1, s => animateStep catalog (wall k) (iterateAnimate catalog wall k s)

/-- The DOM state touched by `openDialog` / `processCollision`
(src/index.mjs lines 151-168): the mouse-button flag, whether the dialog
background is displayed, the dialog's content, and — standing for
`document.body.querySelector` — the article markup available under each
lowercase class name. -/
structure UiState where
  is_mouse_down : Bool
  dialogShown : Bool
  dialogContent : String
  articles : String → Option String

/-- Function `openDialog` (src/index.mjs lines 151-158): look up the article whose
class is the lowercased name; if absent return unchanged, else copy its
markup into the dialog and display the dialog background. -/
def openDialog (name : String) (ui : UiState) : UiState :=
  match ui.articles (lowerName name) with
  | none => ui
  | some markup => { ui with dialogShown := true, dialogContent := markup }

/-- Function `processCollision` (src/index.mjs lines 160-168): open the dialog for
the intersected object's name only when the name is nonempty, is one of
the tracked planet names, and the mouse button is down. -/
noncomputable def processCollision (objName : String) (ui : UiState) : UiState :=
  if objName ≠ "" ∧ objName ∈ planets.map Planet.name then
    if ui.is_mouse_down then openDialog objName ui else ui
  else ui

/-! ### Evaluation lemmas for concrete inputs -/

/-- With zero eccentricity and zero mean anomaly the Newton step is zero,
so the solver converges immediately. -/
theorem keplerIter_zero (fuel : ℕ) : keplerIter 0 0 (fuel + 1) 0 = 0 := by
  simp [keplerIter]
  norm_num

/-- Evaluation `keplerSolve 0 0 = 0`. -/
theorem keplerSolve_zero : keplerSolve 0 0 = 0 := by
  have h : keplerIter 0 0 (29 + 1) 0 = 0 := keplerIter_zero 29
  simpa [keplerSolve] using h

/-- Evaluation `normalizeDeg 0 = 0`. -/
theorem normalizeDeg_zero : normalizeDeg 0 = 0 := by
  simp [normalizeDeg]
  norm_num

/-- A catalog record whose only nonzero data are the semi-major axis and
its secular rate: circular (e = 0), equatorial (i = 0), with all
orientation angles and the mean longitude pinned at zero. -/
def trivElements (a da : ℝ) : Elements := ⟨a, da, 0, 0, 0, 0, 0, 0, 0, 0, 0, 0⟩

/-- For `trivElements a da` the propagator reduces to the point
`((a + da·T)·au2km, 0, 0)` at the epoch's Julian centuries `T`: the mean
anomaly is 0, Kepler's equation is solved by `E = 0`, and all rotations
are by zero angles. -/
theorem getRv_triv (a da t : ℝ) :
    getRvFromElementsDatetime (trivElements a da) t =
      ⟨(a + da * getJulianCenturies (jdOfMs t)) * au2km, 0, 0⟩ := by
  simp [getRvFromElementsDatetime, trivElements, getCurrentElements, deg2rad,
    normalizeDeg_zero, keplerSolve_zero, Real.sin_zero, Real.cos_zero]

/-- Milliseconds value of 2000-01-01T12:00:00 UTC (JD 2451545.0). -/
noncomputable def t2000ms : ℝ := 946728000000

/-- Milliseconds value one Julian century (36525 days) after `t2000ms`. -/
noncomputable def tCenturyMs : ℝ := t2000ms + 86400000 * 36525

theorem centuries_t2000 : getJulianCenturies (jdOfMs t2000ms) = 0 := by
  simp [getJulianCenturies, jdOfMs, t2000ms]
  norm_num

theorem centuries_tCentury : getJulianCenturies (jdOfMs tCenturyMs) = 1 := by
  simp [getJulianCenturies, jdOfMs, tCenturyMs, t2000ms]
  norm_num

/-! ### Structure of the per-frame position update -/

/-- A planet's update writes only at its own name. -/
theorem animateBody_apply_ne (cat : String → Option Elements) (now : ℝ)
    (p : String → Option Vec3) (pl : Planet) (n : String) (h : n ≠ pl.name) :
    animateBody cat now p pl n = p n := by
  unfold animateBody
  cases hp : p pl.name <;> cases hc : cat (lowerName pl.name) <;> simp [hp, hc, h]

/-- Names of no planet in the list are left untouched by the loop. -/
theorem animateBodies_not_mem (cat : String → Option Elements) (now : ℝ)
    (l : List Planet) (p : String → Option Vec3) (n : String)
    (h : n ∉ l.map Planet.name) :
    animateBodies cat now l p n = p n := by
  induction l generalizing p with
  | nil => rfl
  | cons pl rest ih =>
    simp only [List.map_cons, List.mem_cons, not_or] at h
    simp only [animateBodies, List.foldl_cons]
    exact (ih _ h.2).trans (animateBody_apply_ne cat now p pl n h.1)

/-- Without catalog elements a planet's update is the identity. -/
theorem animateBody_cat_none (cat : String → Option Elements) (now : ℝ)
    (p : String → Option Vec3) (pl : Planet)
    (hc : cat (lowerName pl.name) = none) :
    animateBody cat now p pl = p := by
  unfold animateBody
  cases hp : p pl.name <;> simp [hp, hc]

/-- A name with no catalog entry is never written by the loop. -/
theorem animateBodies_cat_none (cat : String → Option Elements) (now : ℝ)
    (l : List Planet) (p : String → Option Vec3) (n : String)
    (hc : cat (lowerName n) = none) :
    animateBodies cat now l p n = p n := by
  induction l generalizing p with
  | nil => rfl
  | cons pl rest ih =>
    simp only [animateBodies, List.foldl_cons]
    by_cases he : pl.name = n
    · rw [animateBody_cat_none cat now p pl (he ▸ hc)]
      exact ih p
    · exact (ih _).trans (animateBody_apply_ne cat now p pl n fun h => he h.symm)

/-- Without a scene object (position `none`) a planet's update is the
identity. -/
theorem animateBody_pos_none (cat : String → Option Elements) (now : ℝ)
    (p : String → Option Vec3) (pl : Planet) (hp : p pl.name = none) :
    animateBody cat now p pl = p := by
  unfold animateBody
  cases hc : cat (lowerName pl.name) <;> simp [hp, hc]

/-- A name with no scene object is never written by the loop. -/
theorem animateBodies_pos_none (cat : String → Option Elements) (now : ℝ)
    (l : List Planet) (p : String → Option Vec3) (n : String)
    (hp : p n = none) :
    animateBodies cat now l p n = p n := by
  induction l generalizing p with
  | nil => rfl
  | cons pl rest ih =>
    simp only [animateBodies, List.foldl_cons]
    by_cases he : pl.name = n
    · rw [animateBody_pos_none cat now p pl (he ▸ hp)]
      exact ih p hp
    · have h1 : animateBody cat now p pl n = p n :=
        animateBody_apply_ne cat now p pl n fun h => he h.symm
      exact (ih _ (h1.trans hp)).trans h1

/-- With distinct planet names, a planet present in both the scene and the
catalog ends the loop re-propagated at `now` and scaled. -/
theorem animateBodies_update (cat : String → Option Elements) (now : ℝ)
    (l : List Planet) (p : String → Option Vec3) (n : String) (v : Vec3)
    (ce : Elements) (hnodup : (l.map Planet.name).Nodup)
    (hmem : n ∈ l.map Planet.name) (hv : p n = some v)
    (hce : cat (lowerName n) = some ce) :
    animateBodies cat now l p n =
      some (scaleVec spatialScale (getRvFromElementsDatetime ce now)) := by
  induction l generalizing p v with
  | nil => simp at hmem
  | cons pl rest ih =>
    simp only [List.map_cons, List.nodup_cons] at hnodup
    simp only [List.map_cons, List.mem_cons] at hmem
    simp only [animateBodies, List.foldl_cons]
    rcases hmem with he | hr
    · have hq : animateBody cat now p pl n =
          some (scaleVec spatialScale (getRvFromElementsDatetime ce now)) := by
        unfold animateBody
        rw [← he, hv, hce]
        simp
      have hnm : n ∉ rest.map Planet.name := he ▸ hnodup.1
      exact (animateBodies_not_mem cat now rest _ n hnm).trans hq
    · have hne : n ≠ pl.name := fun h => hnodup.1 (h ▸ hr)
      have h1 : animateBody cat now p pl n = p n :=
        animateBody_apply_ne cat now p pl n hne
      exact ih _ v hnodup.2 hr (h1.trans hv)

/-- The eight tracked planet names are pairwise distinct. -/
theorem planetNames_nodup : (planets.map Planet.name).Nodup := by
  decide

/-- Re-running the position update of `animate` with the same epoch is the
identity on the already-updated positions (the update is idempotent at a
fixed epoch). -/
theorem animatePositions_idem (cat : String → Option Elements) (now : ℝ)
    (p : String → Option Vec3) :
    animatePositions cat now (animatePositions cat now p) =
      animatePositions cat now p := by
  funext n
  by_cases hm : n ∈ planets.map Planet.name
  · cases hc : cat (lowerName n) with
    | none => exact animateBodies_cat_none cat now planets _ n hc
    | some ce =>
      cases hp : p n with
      | none =>
        have h1 : animatePositions cat now p n = none :=
          (animateBodies_pos_none cat now planets p n hp).trans hp
        exact animateBodies_pos_none cat now planets _ n h1
      | some v =>
        have h1 : animatePositions cat now p n =
            some (scaleVec spatialScale (getRvFromElementsDatetime ce now)) :=
          animateBodies_update cat now planets p n v ce planetNames_nodup hm hp hc
        exact (animateBodies_update cat now planets _ n _ ce planetNames_nodup
          hm h1 hc).trans h1.symm
  · exact animateBodies_not_mem cat now planets _ n hm

/-! ### Claim C2: pausing freezes the clock and the propagated positions -/

/-- While paused, every frame leaves the clock and the paused flag as they
were. -/
theorem iterate_paused_clock (cat : String → Option Elements) (wall : ℕ → ℝ)
    (s : AppState) (hp : s.isPaused = true) (k : ℕ) :
    (iterateAnimate cat wall k s).clock_ms = s.clock_ms ∧
      (iterateAnimate cat wall k s).isPaused = true := by
  induction k with
  | zero => exact ⟨rfl, hp⟩
  | succ k ih =>
    simp only [iterateAnimate, animateStep, ih.2, if_pos]
    exact ⟨ih.1, trivial⟩

/-- While paused, the positions after any positive number of frames are
those propagated once at the frozen clock value. -/
theorem iterate_paused_pos (cat : String → Option Elements) (wall : ℕ → ℝ)
    (s : AppState) (hp : s.isPaused = true) (k : ℕ) :
    (iterateAnimate cat wall (k + 1) s).positions =
      animatePositions cat s.clock_ms s.positions := by
  induction k with
  | zero => rfl
  | succ k ih =>
    have hc := iterate_paused_clock cat wall s hp (k + 1)
    show (animateStep cat (wall (k + 1)) (iterateAnimate cat wall (k + 1) s)).positions = _
    simp only [animateStep, hc.1, ih]
    exact animatePositions_idem cat s.clock_ms s.positions

/-- Claim C2: after the paused flag is set, every subsequent frame is a
no-op — for any two positive frame counts (in particular across at least
10 successive frames) the clock's reported time stays frozen at its last
value and every propagated body position is unchanged. -/
theorem C2_paused_tick_noop (cat : String → Option Elements) (wall : ℕ → ℝ)
    (s : AppState) (hp : s.isPaused = true) (j k : ℕ) (hj : 1 ≤ j) (hk : 1 ≤ k) :
    (iterateAnimate cat wall k s).clock_ms = s.clock_ms ∧
      (iterateAnimate cat wall j s).positions =
        (iterateAnimate cat wall k s).positions := by
  refine ⟨(iterate_paused_clock cat wall s hp k).1, ?_⟩
  obtain ⟨j1, rfl⟩ : ∃ j1, j = j1 + 1 := ⟨j - 1, (Nat.succ_pred_eq_of_pos hj).symm⟩
  obtain ⟨k1, rfl⟩ : ∃ k1, k = k1 + 1 := ⟨k - 1, (Nat.succ_pred_eq_of_pos hk).symm⟩
  rw [iterate_paused_pos cat wall s hp j1, iterate_paused_pos cat wall s hp k1]

/-- A paused state with an empty scene, used to instantiate C2. -/
noncomputable def pausedState : AppState := ⟨0, true, fun _ => none⟩

/-- Witness for C2 at a concrete paused state, an empty catalog, and 10
successive frames. -/
theorem C2_paused_tick_noop_witness :
    (iterateAnimate (fun _ => none) (fun _ => 1) 10 pausedState).clock_ms =
        pausedState.clock_ms ∧
      (iterateAnimate (fun _ => none) (fun _ => 1) 1 pausedState).positions =
        (iterateAnimate (fun _ => none) (fun _ => 1) 10 pausedState).positions :=
  C2_paused_tick_noop (fun _ => none) (fun _ => 1) pausedState rfl 1 10
    (by norm_num) (by norm_num)

/-! ### Claims C3 and C1: what one frame publishes -/

/-- Claim C3: on each per-frame update, a tracked body that has a catalog
elements entry (and a scene object) has its position re-propagated at the
clock's current epoch and published, while a body without a catalog entry
keeps its previously published position untouched. -/
theorem C3_frame_update (cat : String → Option Elements) (wallNow : ℝ)
    (s : AppState) (n m : String) (ce : Elements) (v : Vec3)
    (hmem : n ∈ planets.map Planet.name) (hce : cat (lowerName n) = some ce)
    (hv : s.positions n = some v) (hm : cat (lowerName m) = none) :
    (animateStep cat wallNow s).positions n =
      some (scaleVec spatialScale (getRvFromElementsDatetime ce s.clock_ms)) ∧
    (animateStep cat wallNow s).positions m = s.positions m :=
  ⟨animateBodies_update cat s.clock_ms planets s.positions n v ce
      planetNames_nodup hmem hv hce,
    animateBodies_cat_none cat s.clock_ms planets s.positions m hm⟩

/-- The catalog entry used in concrete instances: semi-major axis 1 AU with
secular rate 1 AU per Julian century, circular and equatorial. -/
noncomputable def ceDrift : Elements := trivElements 1 1

/-- A catalog holding elements only for the key "earth". -/
noncomputable def catEarth : String → Option Elements :=
  fun n => if n = "earth" then some ceDrift else none

/-- A concrete app state: clock at 2000-01-01T12:00:00 UTC, unpaused, with
an "Earth" scene object at the origin and no other scene objects. -/
noncomputable def s2000 : AppState :=
  ⟨t2000ms, false, fun n => if n = "Earth" then some ⟨0, 0, 0⟩ else none⟩

/-- The propagator output for `ceDrift` at the J2000 instant. -/
theorem getRv_ceDrift_t2000 :
    getRvFromElementsDatetime ceDrift t2000ms = ⟨au2km, 0, 0⟩ := by
  have h := getRv_triv 1 1 t2000ms
  rw [centuries_t2000] at h
  simpa [ceDrift] using h

/-- Witness for C3 at a concrete state: "Earth" (catalogued) is
re-propagated and published, "Mars" (no catalog entry) is untouched. -/
theorem C3_frame_update_witness :
    (animateStep catEarth 0 s2000).positions "Earth" =
      some (scaleVec spatialScale (getRvFromElementsDatetime ceDrift s2000.clock_ms)) ∧
    (animateStep catEarth 0 s2000).positions "Mars" = s2000.positions "Mars" :=
  C3_frame_update catEarth 0 s2000 "Earth" "Mars" ceDrift ⟨0, 0, 0⟩
    (by decide) rfl rfl rfl

/-- Claim C1 counterexample: at a concrete state, the position published by
the per-frame update differs from the propagator's heliocentric output in
kilometers — `animate` multiplies each component by `spatialScale = 0.5`
before publishing. -/
theorem C1_counterexample :
    (animateStep catEarth 0 s2000).positions "Earth" ≠
      some (getRvFromElementsDatetime ceDrift s2000.clock_ms) := by
  show (animateStep catEarth 0 s2000).positions "Earth" ≠
    some (getRvFromElementsDatetime ceDrift t2000ms)
  have h1 : (animateStep catEarth 0 s2000).positions "Earth" =
      some (scaleVec spatialScale (getRvFromElementsDatetime ceDrift t2000ms)) :=
    animateBodies_update catEarth t2000ms planets s2000.positions "Earth" ⟨0, 0, 0⟩
      ceDrift planetNames_nodup (by decide) rfl rfl
  rw [h1, getRv_ceDrift_t2000]
  simp only [scaleVec, ne_eq, Option.some.injEq, Vec3.mk.injEq, not_and]
  intro hx
  exfalso
  rw [spatialScale, au2km] at hx
  norm_num at hx

/-- Claim C1 amended: per tracked body per frame, the position published to
the rendering collaborator equals the propagator's heliocentric kilometer
output multiplied componentwise by the core's display scale factor
`spatialScale = 0.5` (the scaling is applied inside the core's `animate`,
not left to the consuming layer). -/
theorem C1_amended (cat : String → Option Elements) (wallNow : ℝ)
    (s : AppState) (n : String) (ce : Elements) (v : Vec3)
    (hmem : n ∈ planets.map Planet.name) (hce : cat (lowerName n) = some ce)
    (hv : s.positions n = some v) :
    (animateStep cat wallNow s).positions n =
      some (scaleVec spatialScale (getRvFromElementsDatetime ce s.clock_ms)) :=
  animateBodies_update cat s.clock_ms planets s.positions n v ce
    planetNames_nodup hmem hv hce

/-- Witness for the amended C1 at a concrete state. -/
theorem C1_amended_witness :
    (animateStep catEarth 0 s2000).positions "Earth" =
      some (scaleVec spatialScale (getRvFromElementsDatetime ceDrift s2000.clock_ms)) :=
  C1_amended catEarth 0 s2000 "Earth" ceDrift ⟨0, 0, 0⟩ (by decide) rfl rfl

/-! ### Claims C4, C5: shape of the sampled orbit traces -/

/-- Indexing a sampled list. -/
theorem getElem_range_map {α : Type} (f : ℕ → α) (n i : ℕ) (h : i < n) :
    ((List.range n).map f)[i]? = some (f i) := by
  rw [List.getElem?_map, List.getElem?_range h]
  rfl

/-- Length of a sampled list. -/
theorem length_range_map {α : Type} (f : ℕ → α) (n : ℕ) :
    ((List.range n).map f).length = n := by
  rw [List.length_map, List.length_range]

/-- The fallback trace has `n+1` points. -/
theorem fallbackTracePoints_length (radius : ℝ) :
    (fallbackTracePoints radius).length = nTracePoints + 1 := by
  unfold fallbackTracePoints
  exact length_range_map _ _

/-- The catalog-path trace has `n+1` points. -/
theorem catalogTracePoints_length (ce : Elements) (now : ℝ) :
    (catalogTracePoints ce now).length = nTracePoints + 1 := by
  unfold catalogTracePoints
  exact length_range_map _ _

/-- The `i`-th fallback trace point, written out. -/
theorem fallbackTracePoints_getElem (radius : ℝ) (i : ℕ) (h : i < nTracePoints + 1) :
    (fallbackTracePoints radius)[i]? =
      some ⟨spatialScale * radius * Real.cos (2 * Real.pi * i / nTracePoints),
            spatialScale * radius * Real.sin (2 * Real.pi * i / nTracePoints), 0⟩ := by
  unfold fallbackTracePoints
  rw [getElem_range_map _ _ i h]
  norm_num

/-- Claim C5 counterexample: the fallback points do not lie on the circle
of the given reference radius — for radius 2 the first sampled point is
`(1, 0, 0)`, at distance `spatialScale * 2 = 1` from the origin, not 2. -/
theorem C5_counterexample :
    ¬ ∀ p ∈ fallbackTracePoints 2, p.x ^ 2 + p.y ^ 2 = 2 ^ 2 := by
  intro hall
  have h0 : (fallbackTracePoints 2)[0]? = some ⟨1, 0, 0⟩ := by
    rw [fallbackTracePoints_getElem 2 0 (by norm_num)]
    norm_num [spatialScale]
  have := hall _ (List.getElem?_mem h0)
  norm_num at this

/-- Claim C5 amended: for a body absent from the catalog the fallback
trace has `n+1 = 101` points; the `i`-th lies at angle `2π·i/n`, exactly
on the circle of radius `spatialScale` times the given reference radius
(not the reference radius itself), with z-coordinate exactly 0. -/
theorem C5_amended (radius : ℝ) (i : ℕ) (hi : i < nTracePoints + 1) :
    (fallbackTracePoints radius).length = nTracePoints + 1 ∧
    (fallbackTracePoints radius)[i]? =
      some ⟨spatialScale * radius * Real.cos (2 * Real.pi * i / nTracePoints),
            spatialScale * radius * Real.sin (2 * Real.pi * i / nTracePoints), 0⟩ ∧
    (spatialScale * radius * Real.cos (2 * Real.pi * i / nTracePoints)) ^ 2 +
        (spatialScale * radius * Real.sin (2 * Real.pi * i / nTracePoints)) ^ 2 =
      (spatialScale * radius) ^ 2 := by
  refine ⟨fallbackTracePoints_length radius, fallbackTracePoints_getElem radius i hi, ?_⟩
  have h := Real.sin_sq_add_cos_sq (2 * Real.pi * i / nTracePoints)
  nlinarith [h]

/-- Witness for the amended C5 at radius 2 and sample index 0. -/
theorem C5_amended_witness :
    (fallbackTracePoints 2).length = nTracePoints + 1 ∧
    (fallbackTracePoints 2)[0]? =
      some ⟨spatialScale * 2 * Real.cos (2 * Real.pi * (0 : ℕ) / nTracePoints),
            spatialScale * 2 * Real.sin (2 * Real.pi * (0 : ℕ) / nTracePoints), 0⟩ ∧
    (spatialScale * 2 * Real.cos (2 * Real.pi * (0 : ℕ) / nTracePoints)) ^ 2 +
        (spatialScale * 2 * Real.sin (2 * Real.pi * (0 : ℕ) / nTracePoints)) ^ 2 =
      (spatialScale * 2) ^ 2 :=
  C5_amended 2 0 (by norm_num)

/-- The `i`-th catalog-path trace point: the propagator's output at
`now + (T_s·i/n)·1e3` milliseconds, scaled. -/
theorem catalogTracePoints_getElem (ce : Elements) (now : ℝ) (i : ℕ)
    (h : i < nTracePoints + 1) :
    (catalogTracePoints ce now)[i]? =
      some (scaleVec spatialScale (getRvFromElementsDatetime ce
        (now + 2 * Real.pi * Real.sqrt
            (getCurrentElements (ce.a_au * au2km) (ce.da_au * au2km)
                (getJulianCenturies (jdOfMs now)) ^ 3 / MU_SUN_KM3PS2) * i /
            nTracePoints * 1000))) := by
  unfold catalogTracePoints
  rw [getElem_range_map _ _ i h]

/-- The first catalog-path trace point is the (scaled) propagator output at
the anchor instant itself. -/
theorem catalogTracePoints_head (ce : Elements) (now : ℝ) :
    (catalogTracePoints ce now)[0]? =
      some (scaleVec spatialScale (getRvFromElementsDatetime ce now)) := by
  rw [catalogTracePoints_getElem ce now 0 (by norm_num)]
  norm_num

/-- The semi-major axis `buildOrbitTrace` computes for `ceDrift` at the
J2000 anchor. -/
theorem aCur_ceDrift_t2000 :
    getCurrentElements (ceDrift.a_au * au2km) (ceDrift.da_au * au2km)
      (getJulianCenturies (jdOfMs t2000ms)) = au2km := by
  rw [centuries_t2000]
  simp [getCurrentElements, ceDrift, trivElements]

/-- Claim C4 counterexample: in the catalog-elements path the closing
point is NOT an appended copy of the first point — it is the propagator's
output one derived period after the anchor, which differs from the first
point for `ceDrift` at the J2000 anchor (the secular rate moves the
semi-major axis across the sampled period). -/
theorem C4_counterexample :
    (catalogTracePoints ceDrift t2000ms)[nTracePoints]? ≠
      (catalogTracePoints ceDrift t2000ms)[0]? := by
  have hTs : (0 : ℝ) < 2 * Real.pi * Real.sqrt (au2km ^ 3 / MU_SUN_KM3PS2) := by
    have hq : (0 : ℝ) < au2km ^ 3 / MU_SUN_KM3PS2 := by
      rw [au2km, MU_SUN_KM3PS2]; positivity
    have := Real.sqrt_pos.mpr hq
    have := Real.pi_pos
    nlinarith
  have h0 : (catalogTracePoints ceDrift t2000ms)[0]? =
      some (scaleVec spatialScale ⟨au2km, 0, 0⟩) := by
    rw [catalogTracePoints_head, getRv_ceDrift_t2000]
  have h100 : (catalogTracePoints ceDrift t2000ms)[nTracePoints]? =
      some (scaleVec spatialScale
        ⟨(1 + 2 * Real.pi * Real.sqrt (au2km ^ 3 / MU_SUN_KM3PS2) / 3155760000) *
          au2km, 0, 0⟩) := by
    rw [catalogTracePoints_getElem ceDrift t2000ms nTracePoints (by norm_num),
      aCur_ceDrift_t2000]
    have harg : t2000ms + 2 * Real.pi * Real.sqrt (au2km ^ 3 / MU_SUN_KM3PS2) *
        (nTracePoints : ℝ) / (nTracePoints : ℝ) * 1000 =
        t2000ms + 2 * Real.pi * Real.sqrt (au2km ^ 3 / MU_SUN_KM3PS2) * 1000 := by
      rw [nTracePoints]; push_cast; ring
    rw [harg]
    have hrv := getRv_triv 1 1
      (t2000ms + 2 * Real.pi * Real.sqrt (au2km ^ 3 / MU_SUN_KM3PS2) * 1000)
    have hcent : getJulianCenturies (jdOfMs
        (t2000ms + 2 * Real.pi * Real.sqrt (au2km ^ 3 / MU_SUN_KM3PS2) * 1000)) =
        2 * Real.pi * Real.sqrt (au2km ^ 3 / MU_SUN_KM3PS2) / 3155760000 := by
      rw [getJulianCenturies, jdOfMs, t2000ms]
      ring
    rw [hcent] at hrv
    rw [show ceDrift = trivElements 1 1 from rfl, hrv]
    norm_num
  rw [h0, h100]
  have hau : (0 : ℝ) < au2km := by rw [au2km]; norm_num
  have hss : (0 : ℝ) < spatialScale := by rw [spatialScale]; norm_num
  simp only [scaleVec, ne_eq, Option.some.injEq, Vec3.mk.injEq, not_and]
  intro hx
  exfalso
  have hq : (0 : ℝ) <
      2 * Real.pi * Real.sqrt (au2km ^ 3 / MU_SUN_KM3PS2) / 3155760000 :=
    div_pos hTs (by norm_num)
  have h3 : spatialScale *
      (2 * Real.pi * Real.sqrt (au2km ^ 3 / MU_SUN_KM3PS2) / 3155760000) *
      au2km = 0 := by linear_combination hx
  exact ne_of_gt (mul_pos (mul_pos hss hq) hau) h3

/-- Claim C4 amended: the sampler always returns exactly `n+1 = 101`
points; in the fallback path the first and last points coincide exactly;
in the catalog path the closing point is the propagator's sample one
derived period after the anchor (an approximate, not appended-exact,
closure). -/
theorem C4_amended (cat : String → Option Elements) (radius : ℝ)
    (name : String) (wallNow : ℝ) :
    (buildOrbitTracePoints cat radius name wallNow).length = nTracePoints + 1 ∧
    (cat (lowerName name) = none →
      (buildOrbitTracePoints cat radius name wallNow)[nTracePoints]? =
        (buildOrbitTracePoints cat radius name wallNow)[0]?) := by
  constructor
  · unfold buildOrbitTracePoints
    cases cat (lowerName name) with
    | none => exact fallbackTracePoints_length radius
    | some ce => exact catalogTracePoints_length ce wallNow
  · intro h
    unfold buildOrbitTracePoints
    rw [h]
    rw [fallbackTracePoints_getElem radius nTracePoints (by norm_num),
      fallbackTracePoints_getElem radius 0 (by norm_num)]
    have harg : 2 * Real.pi * (nTracePoints : ℝ) / (nTracePoints : ℝ) =
        2 * Real.pi := by
      rw [nTracePoints]; norm_num
    push_cast
    rw [harg]
    norm_num [Real.cos_two_pi, Real.sin_two_pi]

/-- Witness for the amended C4 with an empty catalog (fallback path). -/
theorem C4_amended_witness :
    (buildOrbitTracePoints (fun _ => none) 2 "Pluto" 0).length = nTracePoints + 1 ∧
    (buildOrbitTracePoints (fun _ => none) 2 "Pluto" 0)[nTracePoints]? =
      (buildOrbitTracePoints (fun _ => none) 2 "Pluto" 0)[0]? :=
  ⟨(C4_amended (fun _ => none) 2 "Pluto" 0).1,
    (C4_amended (fun _ => none) 2 "Pluto" 0).2 rfl⟩

/-! ### Claim C6: the catalog path follows the spec's sampling scheme -/

/-- Stated from the spec's words (§4.3): the current semi-major axis at the
start epoch, `value0 + rate·T` converted to kilometers. -/
noncomputable def specSemiMajorAxis_km (ce : Elements) (start_ms : ℝ) : ℝ :=
  (ce.a_au + ce.da_au * getJulianCenturies (jdOfMs start_ms)) * au2km

/-- Stated from the spec's words (§4.3): the derived orbital period
`T = 2π·sqrt(a³/μ)` with `μ` the central body's gravitational parameter. -/
noncomputable def specOrbitPeriod_s (ce : Elements) (start_ms : ℝ) : ℝ :=
  2 * Real.pi * Real.sqrt (specSemiMajorAxis_km ce start_ms ^ 3 / MU_SUN_KM3PS2)

/-- Stated from the spec's words (§4.3): the period divided into
`pointCount` equal time steps starting at the start time (`pointCount + 1`
sample instants, in milliseconds). -/
noncomputable def specSampleInstants (ce : Elements) (start_ms : ℝ) : List ℝ :=
  (List.range (nTracePoints + 1)).map fun i : ℕ =>
    start_ms + specOrbitPeriod_s ce start_ms * (i : ℝ) / (nTracePoints : ℝ) * 1000

/-- Claim C6: for a body with catalog elements the sampler computes the
current semi-major axis at the start epoch, derives the period
`T = 2π·sqrt(a³/μ)`, divides it into `pointCount` equal steps from the
start time, and calls the propagator at each sample instant (the emitted
points are exactly the scaled propagator outputs at the spec's sample
instants). -/
theorem C6_catalog_sampling (cat : String → Option Elements) (radius : ℝ)
    (name : String) (wallNow : ℝ) (ce : Elements)
    (hce : cat (lowerName name) = some ce) :
    buildOrbitTracePoints cat radius name wallNow =
      (specSampleInstants ce wallNow).map
        (fun t => scaleVec spatialScale (getRvFromElementsDatetime ce t)) := by
  unfold buildOrbitTracePoints
  rw [hce]
  show catalogTracePoints ce wallNow = _
  apply List.ext_getElem?
  intro i
  by_cases hi : i < nTracePoints + 1
  · rw [catalogTracePoints_getElem ce wallNow i hi]
    simp only [specSampleInstants]
    rw [List.map_map, getElem_range_map _ _ i hi]
    have ha : getCurrentElements (ce.a_au * au2km) (ce.da_au * au2km)
        (getJulianCenturies (jdOfMs wallNow)) = specSemiMajorAxis_km ce wallNow := by
      unfold getCurrentElements specSemiMajorAxis_km
      ring
    rw [ha]
    simp only [Function.comp, specOrbitPeriod_s]
  · have h1 : (catalogTracePoints ce wallNow).length ≤ i := by
      rw [catalogTracePoints_length]
      omega
    have h2 : (((specSampleInstants ce wallNow).map
        (fun t => scaleVec spatialScale (getRvFromElementsDatetime ce t)))).length ≤ i := by
      simp only [specSampleInstants, List.length_map, List.length_range]
      omega
    rw [List.getElem?_eq_none h1, List.getElem?_eq_none h2]

/-- Witness for C6 with the one-entry catalog and the J2000 anchor. -/
theorem C6_catalog_sampling_witness :
    buildOrbitTracePoints catEarth 1 "Earth" t2000ms =
      (specSampleInstants ceDrift t2000ms).map
        (fun t => scaleVec spatialScale (getRvFromElementsDatetime ceDrift t)) :=
  C6_catalog_sampling catEarth 1 "Earth" t2000ms ceDrift rfl

/-! ### Claim C7: what instant anchors the orbit sampling -/

/-- Claim C7 counterexample: the trace is NOT a function of the simulation
clock — `buildOrbitTrace` takes a fresh `new Date()` wall-clock reading
and anchors sampling to it, so traces built at different wall instants
differ even though the claim says sampling starts at the simulation
clock's current time.  Here the two wall readings are one Julian century
apart and `ceDrift`'s secular rate moves the first sampled point. -/
theorem C7_counterexample :
    ¬ ∀ wallNow clock_ms : ℝ,
        buildOrbitTracePoints catEarth 1 "Earth" wallNow =
          buildOrbitTracePoints catEarth 1 "Earth" clock_ms := by
  intro hall
  have hshow : ∀ t : ℝ, buildOrbitTracePoints catEarth 1 "Earth" t =
      catalogTracePoints ceDrift t := by
    intro t
    unfold buildOrbitTracePoints
    rfl
  have hlist := hall tCenturyMs t2000ms
  rw [hshow tCenturyMs, hshow t2000ms] at hlist
  have h : (catalogTracePoints ceDrift tCenturyMs)[0]? =
      (catalogTracePoints ceDrift t2000ms)[0]? := by rw [hlist]
  rw [catalogTracePoints_head, catalogTracePoints_head, getRv_ceDrift_t2000] at h
  have hrvC : getRvFromElementsDatetime ceDrift tCenturyMs = ⟨2 * au2km, 0, 0⟩ := by
    have h1 := getRv_triv 1 1 tCenturyMs
    rw [centuries_tCentury] at h1
    rw [show ceDrift = trivElements 1 1 from rfl, h1]
    norm_num
  rw [hrvC] at h
  simp only [scaleVec, Option.some.injEq, Vec3.mk.injEq] at h
  have hx := h.1
  rw [spatialScale, au2km] at hx
  norm_num at hx

/-- Claim C7 amended: the sampler anchors its period sampling to the fresh
wall-clock reading taken inside `buildOrbitTrace` (its `wallNow`), not to
the simulation clock: the first sample is the propagator's output at
exactly that wall reading. -/
theorem C7_amended (cat : String → Option Elements) (radius : ℝ)
    (name : String) (wallNow : ℝ) (ce : Elements)
    (hce : cat (lowerName name) = some ce) :
    (buildOrbitTracePoints cat radius name wallNow)[0]? =
      some (scaleVec spatialScale (getRvFromElementsDatetime ce wallNow)) := by
  unfold buildOrbitTracePoints
  rw [hce]
  exact catalogTracePoints_head ce wallNow

/-- Witness for the amended C7. -/
theorem C7_amended_witness :
    (buildOrbitTracePoints catEarth 1 "Earth" t2000ms)[0]? =
      some (scaleVec spatialScale (getRvFromElementsDatetime ceDrift t2000ms)) :=
  C7_amended catEarth 1 "Earth" t2000ms ceDrift rfl

/-! ### Claim C8: missing catalog entries degrade, never fail -/

/-- Claim C8: for a body whose (lowercased) name has no catalog entry,
orbit-trace construction returns the static circular placeholder with its
full `n+1` points, and the per-frame update leaves the body's published
position untouched — the missing entry never surfaces as a failure (both
operations are total functions of the state). -/
theorem C8_missing_entry (cat : String → Option Elements) (radius : ℝ)
    (name : String) (wallNow w : ℝ) (s : AppState)
    (h : cat (lowerName name) = none) :
    buildOrbitTracePoints cat radius name wallNow = fallbackTracePoints radius ∧
    (buildOrbitTracePoints cat radius name wallNow).length = nTracePoints + 1 ∧
    (animateStep cat w s).positions name = s.positions name := by
  refine ⟨?_, ?_, animateBodies_cat_none cat s.clock_ms planets s.positions name h⟩
  · unfold buildOrbitTracePoints
    rw [h]
  · unfold buildOrbitTracePoints
    rw [h]
    exact fallbackTracePoints_length radius

/-- Witness for C8: "Mars" has no entry in the one-entry catalog. -/
theorem C8_missing_entry_witness :
    buildOrbitTracePoints catEarth 2 "Mars" 0 = fallbackTracePoints 2 ∧
    (buildOrbitTracePoints catEarth 2 "Mars" 0).length = nTracePoints + 1 ∧
    (animateStep catEarth 0 s2000).positions "Mars" = s2000.positions "Mars" :=
  C8_missing_entry catEarth 2 "Mars" 0 0 s2000 rfl

/-! ### Claim C10: when a content dialog can open -/

/-- Claim C10: a content dialog is never opened unless the mouse button is
currently down and the intersected object's name is nonempty and one of
the eight tracked planet names; in particular pointer hover alone (mouse
up), a pointer-down on the Sun, and a pointer-down on an unnamed
orbit-trace line never open a dialog. -/
theorem C10_dialog_guard (ui uiSun uiHover : UiState) (objName hoverName : String)
    (h : (processCollision objName ui).dialogShown = true)
    (h0 : ui.dialogShown = false)
    (hSun : uiSun.dialogShown = false)
    (hHover : uiHover.dialogShown = false)
    (hHoverUp : uiHover.is_mouse_down = false) :
    (ui.is_mouse_down = true ∧ objName ≠ "" ∧
        objName ∈ planets.map Planet.name) ∧
    (processCollision "Sun" uiSun).dialogShown = false ∧
    (processCollision "" uiSun).dialogShown = false ∧
    (processCollision hoverName uiHover).dialogShown = false := by
  have hSunMem : "Sun" ∉ planets.map Planet.name := by decide
  refine ⟨?_, ?_, ?_, ?_⟩
  · by_cases hcond : objName ≠ "" ∧ objName ∈ planets.map Planet.name
    · by_cases hm : ui.is_mouse_down = true
      · exact ⟨hm, hcond⟩
      · exfalso
        simp only [processCollision, if_pos hcond, if_neg hm] at h
        rw [h0] at h
        exact Bool.false_ne_true h
    · exfalso
      simp only [processCollision, if_neg hcond] at h
      rw [h0] at h
      exact Bool.false_ne_true h
  · simp only [processCollision,
      if_neg (show ¬(("Sun" : String) ≠ "" ∧ "Sun" ∈ planets.map Planet.name) by
        simp [hSunMem])]
    exact hSun
  · simp only [processCollision,
      if_neg (show ¬(("" : String) ≠ "" ∧ "" ∈ planets.map Planet.name) by simp)]
    exact hSun
  · simp only [processCollision]
    by_cases hcond : hoverName ≠ "" ∧ hoverName ∈ planets.map Planet.name
    · rw [if_pos hcond, if_neg (show ¬uiHover.is_mouse_down = true by
        simp [hHoverUp])]
      exact hHover
    · rw [if_neg hcond]
      exact hHover

/-- A DOM state ready for a selection: mouse down, dialog hidden, an
article available under the class "earth". -/
def uiReady : UiState :=
  ⟨true, false, "", fun n => if n = "earth" then some "article markup" else none⟩

/-- An idle DOM state: mouse up, dialog hidden, no articles. -/
def uiIdle : UiState := ⟨false, false, "", fun _ => none⟩

/-- Witness for C10: clicking "Earth" with the mouse down opens the dialog,
and the conclusion holds at that instant; meanwhile "Sun", the unnamed
trace lines, and hover without a press never open it. -/
theorem C10_dialog_guard_witness :
    (uiReady.is_mouse_down = true ∧ ("Earth" : String) ≠ "" ∧
        "Earth" ∈ planets.map Planet.name) ∧
    (processCollision "Sun" uiIdle).dialogShown = false ∧
    (processCollision "" uiIdle).dialogShown = false ∧
    (processCollision "Venus" uiIdle).dialogShown = false :=
  C10_dialog_guard uiReady uiIdle uiIdle "Earth" "Venus" (by decide) rfl rfl rfl rfl

end SolarSim
